import Mathlib

/-!
Shallow embedding of the zone state machine of the OCR canvas app.

The embedded code comes from `src/App.tsx` (zone store handlers),
`src/components/ZoneCanvas.tsx` (geometry engine and pointer-event
handlers), `src/services/api.ts` (recognition request validation), and
the App variant carrying the undo history.

Modelling conventions: JS numbers are rationals (the handlers only do
exact linear arithmetic on them; NaN is modelled explicitly where the
code tests for it), zone collections are ordered lists, and each event
handler is a pure function from its inputs and the relevant component
state to the new state and the effects it emits.
-/

namespace OcrCanvas

/-- Axis-aligned bounding box as stored on a zone (`types.ts`,
`Zone.bbox`): corners plus the derived width and height fields. -/
structure BBox where
  x1 : ℚ
  y1 : ℚ
  x2 : ℚ
  y2 : ℚ
  width : ℚ
  height : ℚ
deriving DecidableEq

/-- Draggable bubble position offset from the box top-left corner
(`types.ts`, `Zone.bubbleOffset`). -/
structure BubbleOffset where
  x : ℚ
  y : ℚ
deriving DecidableEq

/-- Parsed tolerance annotation (`types.ts`, `Zone.tolerance_info`);
only the numeric fields the handlers touch are carried. -/
structure ToleranceInfo where
  value : Option ℚ := none
  min_tolerance : Option ℚ := none
  max_tolerance : Option ℚ := none
  middle_value : Option ℚ := none
deriving DecidableEq

/-- The central entity (`types.ts`, `Zone`): a detected text zone. -/
structure Zone where
  id : String
  text : String
  confidence : ℚ
  bbox : BBox
  polygon : Option (List (List ℚ)) := none
  rotation : Option ℚ := none
  text_orientation : Option ℚ := none
  orientation : Option String := none
  croppedImage : Option String := none
  bubbleOffset : Option BubbleOffset := none
  is_empty : Option Bool := none
  tolerance_info : Option ToleranceInfo := none
deriving DecidableEq

/-- A `Partial<Zone>` update as passed to `handleZoneUpdate`: a present
field replaces the corresponding zone field on object-spread merge. -/
structure ZoneUpdate where
  id : Option String := none
  text : Option String := none
  confidence : Option ℚ := none
  bbox : Option BBox := none
  polygon : Option (List (List ℚ)) := none
  rotation : Option ℚ := none
  text_orientation : Option ℚ := none
  orientation : Option String := none
  croppedImage : Option String := none
  bubbleOffset : Option BubbleOffset := none
  is_empty : Option Bool := none
  tolerance_info : Option ToleranceInfo := none
deriving DecidableEq

/-- Object-spread merge `{ ...zone, ...updates }` of a partial update
into a zone. -/
def applyUpdate (z : Zone) (u : ZoneUpdate) : Zone where
  id := u.id.getD z.id
  text := u.text.getD z.text
  confidence := u.confidence.getD z.confidence
  bbox := u.bbox.getD z.bbox
  polygon := match u.polygon with | some p => some p | none => z.polygon
  rotation := match u.rotation with | some r => some r | none => z.rotation
  text_orientation :=
    match u.text_orientation with | some v => some v | none => z.text_orientation
  orientation := match u.orientation with | some o => some o | none => z.orientation
  croppedImage := match u.croppedImage with | some c => some c | none => z.croppedImage
  bubbleOffset := match u.bubbleOffset with | some o => some o | none => z.bubbleOffset
  is_empty := match u.is_empty with | some e => some e | none => z.is_empty
  tolerance_info :=
    match u.tolerance_info with | some t => some t | none => z.tolerance_info

/-- App.tsx `handleZoneUpdate`: merge the partial update into the zone
with the given id; when the update carries a bbox, recompute the
derived width and height from the merged corners. Other zones are
untouched, and an id not present in the list leaves the list as is. -/
def handleZoneUpdate (zones : List Zone) (zoneId : String) (updates : ZoneUpdate) :
    List Zone :=
  zones.map fun zone =>
    if zone.id = zoneId then
      let updatedZone := applyUpdate zone updates
      if updates.bbox.isSome then
        { updatedZone with
            bbox :=
              { updatedZone.bbox with
                  width := updatedZone.bbox.x2 - updatedZone.bbox.x1
                  height := updatedZone.bbox.y2 - updatedZone.bbox.y1 } }
      else updatedZone
    else zone

/-- App-level store state relevant to deletion: the ordered zone list
and the current selection. -/
structure AppState where
  zones : List Zone
  selectedZoneId : Option String
deriving DecidableEq

/-- App.tsx `handleZoneDelete`: filter the zone with the given id out of
the list and clear the selection when it pointed at that id. -/
def handleZoneDelete (s : AppState) (zoneId : String) : AppState where
  zones := s.zones.filter fun zone => zone.id != zoneId
  selectedZoneId := if s.selectedZoneId = some zoneId then none else s.selectedZoneId

/-- Display numbering: a zone is labelled `1 + its position` in the
list (the canvas draws `index + 1` in the bubble). -/
def displayNumbers (zones : List Zone) : List ℕ :=
  (List.range zones.length).map (· + 1)

/-- State of the App variant with the undo history: zones, selection,
and the stack of pre-mutation snapshots of the whole zone list. -/
structure UndoAppState where
  zones : List Zone
  selectedZoneId : Option String
  zoneHistory : List (List Zone)
deriving DecidableEq

/-- Undo-variant `handleZoneDelete`: push the pre-delete snapshot onto
the history, then remove the zone and clear a matching selection. -/
def undoAppDelete (s : UndoAppState) (zoneId : String) : UndoAppState where
  zones := s.zones.filter fun zone => zone.id != zoneId
  selectedZoneId := if s.selectedZoneId = some zoneId then none else s.selectedZoneId
  zoneHistory := s.zoneHistory ++ [s.zones]

/-- Undo-variant `handleZoneUndo`: with a nonempty history, look the id
up in the last snapshot; when found, map over the current list
replacing the zone carrying that id by the snapshot version and pop the
history. The map leaves an id absent from the current list alone. -/
def undoAppUndo (s : UndoAppState) (zoneId : String) : UndoAppState :=
  if s.zoneHistory = [] then s
  else
    let previousState := s.zoneHistory.getLast?.getD []
    match previousState.find? fun z => z.id == zoneId with
    | some previousZone =>
        { s with
            zones := s.zones.map fun z => if z.id = zoneId then previousZone else z
            zoneHistory := s.zoneHistory.dropLast }
    | none => s

/-- Zone id assigned by `handleCanvasClick` to a singly created zone:
time-based with no per-tick disambiguation. -/
def singleZoneId (now : ℕ) : String := "zone_" ++ toString now

/-- Zone id assigned by `autoDetectZones` to the idx-th zone of a bulk
detection: time-based with the batch index as suffix. -/
def bulkZoneId (now : ℕ) (idx : ℕ) : String :=
  "zone_" ++ toString now ++ "_" ++ toString idx

/-- Bounding box as returned by the recognition service: corners only,
possibly absent as a whole. -/
structure RecBBox where
  x1 : ℚ
  y1 : ℚ
  x2 : ℚ
  y2 : ℚ
deriving DecidableEq

/-- Recognition service zone result, with each field the App handlers
read possibly missing; JS truthiness is applied at the use sites. -/
structure RecResult where
  text : Option String := none
  confidence : Option ℚ := none
  bbox : Option RecBBox := none
  polygon : Option (List (List ℚ)) := none
  rotation : Option ℚ := none
  text_orientation : Option ℚ := none
  orientation : Option String := none
deriving DecidableEq

/-- JS `a || b` for an optionally-present string operand: the empty
string is falsy. -/
def jsOrStr (a : Option String) (b : String) : String :=
  match a with
  | some s => if s = "" then b else s
  | none => b

/-- JS `a || b` for an optionally-present string operand with an
optional fallback. -/
def jsOrStrOpt (a : Option String) (b : Option String) : Option String :=
  match a with
  | some s => if s = "" then b else some s
  | none => b

/-- JS `a || b` for an optionally-present numeric operand: 0 is falsy
(the embedded inputs are never NaN at these call sites). -/
def jsOrNum (a : Option ℚ) (b : ℚ) : ℚ :=
  match a with
  | some q => if q = 0 then b else q
  | none => b

/-- JS `Math.abs`. -/
def jsAbs (q : ℚ) : ℚ := if q < 0 then -q else q

/-- JS `Math.min` on two numbers. -/
def jsMin (a b : ℚ) : ℚ := if a ≤ b then a else b

/-- JS `Math.max` on two numbers. -/
def jsMax (a b : ℚ) : ℚ := if a ≤ b then b else a

/-- App.tsx `handleCanvasClick`: build the new zone from a successful
point or rectangle query response. Missing bbox corners fall back to 0
and width and height are computed from the corners. -/
def mkClickZone (now : ℕ) (r : RecResult) : Zone :=
  let bx1 := jsOrNum (r.bbox.map RecBBox.x1) 0
  let by1 := jsOrNum (r.bbox.map RecBBox.y1) 0
  let bx2 := jsOrNum (r.bbox.map RecBBox.x2) 0
  let by2 := jsOrNum (r.bbox.map RecBBox.y2) 0
  { id := singleZoneId now
    text := jsOrStr r.text "Unknown"
    confidence := jsOrNum r.confidence 0
    bbox := ⟨bx1, by1, bx2, by2, bx2 - bx1, by2 - by1⟩
    polygon := r.polygon
    rotation := r.rotation
    text_orientation := r.text_orientation
    orientation := r.orientation }

/-- App.tsx `handleCanvasClick`: append the freshly created zone to the
store (`setZones([...zones, newZone])`). -/
def appendClickZone (zones : List Zone) (now : ℕ) (r : RecResult) : List Zone :=
  zones ++ [mkClickZone now r]

/-- App.tsx `autoDetectZones`: the zone built for the idx-th detection
of a bulk pass; same field mapping as `mkClickZone` but with the
index-suffixed id. -/
def mkDetectedZone (now idx : ℕ) (r : RecResult) : Zone :=
  let bx1 := jsOrNum (r.bbox.map RecBBox.x1) 0
  let by1 := jsOrNum (r.bbox.map RecBBox.y1) 0
  let bx2 := jsOrNum (r.bbox.map RecBBox.x2) 0
  let by2 := jsOrNum (r.bbox.map RecBBox.y2) 0
  { id := bulkZoneId now idx
    text := jsOrStr r.text "Unknown"
    confidence := jsOrNum r.confidence 0
    bbox := ⟨bx1, by1, bx2, by2, bx2 - bx1, by2 - by1⟩
    polygon := r.polygon
    rotation := r.rotation
    text_orientation := r.text_orientation
    orientation := r.orientation }

/-- Index-carrying recursion behind the `map` with index of
`autoDetectZones`. -/
def autoDetectZonesFrom (now : ℕ) : ℕ → List RecResult → List Zone
  | _, [] => []
  | idx, r :: rest => mkDetectedZone now idx r :: autoDetectZonesFrom now (idx + 1) rest

/-- App.tsx `autoDetectZones`: map every returned detection into a new
zone, indices starting at 0; this replaces the whole store. -/
def autoDetectZones (now : ℕ) (results : List RecResult) : List Zone :=
  autoDetectZonesFrom now 0 results

/-- App.tsx `handleZoneReOcr` success branch: merge the rectangle-query
result into the targeted zone. Text and confidence fall back to the
existing values when falsy; each bbox corner falls back to the existing
corner when the result bbox is missing or the coordinate is 0 (JS
`||`), and width and height are recomputed from the merged corners. -/
def reOcrMergeZone (z : Zone) (result : RecResult) : Zone :=
  let bx1 := jsOrNum (result.bbox.map RecBBox.x1) z.bbox.x1
  let by1 := jsOrNum (result.bbox.map RecBBox.y1) z.bbox.y1
  let bx2 := jsOrNum (result.bbox.map RecBBox.x2) z.bbox.x2
  let by2 := jsOrNum (result.bbox.map RecBBox.y2) z.bbox.y2
  { z with
      text := jsOrStr result.text z.text
      confidence := jsOrNum result.confidence z.confidence
      bbox := ⟨bx1, by1, bx2, by2, bx2 - bx1, by2 - by1⟩
      polygon := match result.polygon with | some p => some p | none => z.polygon
      text_orientation :=
        match result.text_orientation with | some v => some v | none => z.text_orientation
      rotation := match result.rotation with | some v => some v | none => z.rotation
      orientation := jsOrStrOpt result.orientation z.orientation }

/-- App.tsx `handleZoneReOcr`: on a successful rectangle query scoped to
the current bbox of the zone, merge the result into that zone; a null
result leaves the store unchanged. -/
def handleZoneReOcr (zones : List Zone) (zoneId : String) (result : Option RecResult) :
    List Zone :=
  match result with
  | some r => zones.map fun z => if z.id = zoneId then reOcrMergeZone z r else z
  | none => zones

/-- App.tsx `handleZoneFit`: the fit action delegates to
`handleZoneReOcr` unchanged. -/
def handleZoneFit (zones : List Zone) (zoneId : String) (result : Option RecResult) :
    List Zone :=
  handleZoneReOcr zones zoneId result

/-- ZoneCanvas `isPointInPolygon`: ray-casting, iterating i over the
vertex indices with j the previous index (wrapping to the last vertex
for i = 0); missing coordinates read as 0, as the callers only pass
polygons whose vertices carry at least two coordinates. -/
def isPointInPolygon (x y : ℚ) (polygon : List (List ℚ)) : Bool :=
  let n := polygon.length
  (List.range n).foldl
    (fun inside i =>
      let j := if i = 0 then n - 1 else i - 1
      let vi := polygon.getD i []
      let vj := polygon.getD j []
      let xi := vi.getD 0 0
      let yi := vi.getD 1 0
      let xj := vj.getD 0 0
      let yj := vj.getD 1 0
      let intersect :=
        (decide (yi > y) != decide (yj > y)) &&
        decide (x < (xj - xi) * (y - yi) / (yj - yi) + xi)
      if intersect then !inside else inside)
    false

/-- Axis-aligned containment test used by `findZoneAtPoint`:
`x >= x1 && x <= x2 && y >= y1 && y <= y2`. -/
def bboxContains (b : BBox) (x y : ℚ) : Bool :=
  decide (b.x1 ≤ x) && decide (x ≤ b.x2) && decide (b.y1 ≤ y) && decide (y ≤ b.y2)

/-- Polygon well-formedness as checked by `findZoneAtPoint`:
`polygon.length >= 4 && polygon.every(p => p.length >= 2)`. -/
def wellFormedPolygon (polygon : List (List ℚ)) : Bool :=
  decide (4 ≤ polygon.length) && polygon.all fun p => decide (2 ≤ p.length)

/-- Per-zone hit test performed inside the `findZoneAtPoint` loop: fast
reject outside the bbox; inside it, defer to the ray-casting test when
a well-formed polygon is present, and otherwise accept on the bbox
containment alone. -/
def hitTestZone (x y : ℚ) (z : Zone) : Bool :=
  if bboxContains z.bbox x y then
    match z.polygon with
    | some polygon =>
        if wellFormedPolygon polygon then isPointInPolygon x y polygon else true
    | none => true
  else false

/-- ZoneCanvas `findZoneAtPoint`: walk the zones topmost first (reverse
insertion order) and return the first one the per-zone hit test
accepts. -/
def findZoneAtPoint (x y : ℚ) (zones : List Zone) : Option Zone :=
  zones.reverse.find? (hitTestZone x y)

/-- One resize step of the ZoneCanvas `handleMouseMove` drag branch:
the edge flags are recomputed from the drag start against the current
box (threshold 15, with the 2px text alignment offset applied to the y
comparisons), every flagged edge moves by the delta, and then the 10px
minimum size is enforced by the two clamp blocks. The stored update
carries the recomputed width and height. -/
def resizeStep (b : BBox) (dragStartX dragStartY dx dy : ℚ) : BBox :=
  let edgeThreshold : ℚ := 15
  let textAlignmentOffset : ℚ := 2
  let adjustedY1 := b.y1 - textAlignmentOffset
  let adjustedY2 := b.y2 - textAlignmentOffset
  let nearLeft := jsAbs (dragStartX - b.x1) < edgeThreshold
  let nearRight := jsAbs (dragStartX - b.x2) < edgeThreshold
  let nearTop := jsAbs (dragStartY - adjustedY1) < edgeThreshold
  let nearBottom := jsAbs (dragStartY - adjustedY2) < edgeThreshold
  let x1 := if nearLeft then b.x1 + dx else b.x1
  let x2 := if nearRight then b.x2 + dx else b.x2
  let y1 := if nearTop then b.y1 + dy else b.y1
  let y2 := if nearBottom then b.y2 + dy else b.y2
  let minSize : ℚ := 10
  let px := if x2 - x1 < minSize then
              (if nearLeft then (x2 - minSize, x2) else (x1, x1 + minSize))
            else (x1, x2)
  let py := if y2 - y1 < minSize then
              (if nearTop then (y2 - minSize, y2) else (y1, y1 + minSize))
            else (y1, y2)
  ⟨px.1, py.1, px.2, py.2, px.2 - px.1, py.2 - py.1⟩

/-- Move step of the same drag branch: uniform translation of all four
corners. -/
def moveStep (b : BBox) (dx dy : ℚ) : BBox :=
  ⟨b.x1 + dx, b.y1 + dy, b.x2 + dx, b.y2 + dy, b.x2 - b.x1, b.y2 - b.y1⟩

/-- Pointer position in image coordinates. -/
structure Point where
  x : ℚ
  y : ℚ
deriving DecidableEq

/-- Effects the ZoneCanvas mouse-up handler can emit toward the App:
committing a pending overlay update through `onZoneUpdate`, issuing a
rectangle recognition query through `onCanvasClick`, or requesting a
zone re-recognition through the `onZoneResize` callback. -/
inductive CanvasEffect where
  | commitUpdate (zoneId : String) (updates : ZoneUpdate)
  | rectangleQuery (x1 y1 x2 y2 : ℚ)
  | reOcrQuery (zoneId : String)
deriving DecidableEq

/-- ZoneCanvas drag-interaction state read and reset by
`handleMouseUp`. -/
structure CanvasState where
  localZoneUpdates : List (String × ZoneUpdate)
  isDrawing : Bool
  dragStart : Option Point
  mousePos : Option Point
  draggingBubble : Option String
  isDraggingZone : Bool
  isDrawingRectangle : Bool
  rectangleStart : Option Point
  isResizing : Bool
deriving DecidableEq

/-- Rectangle-finishing part of ZoneCanvas `handleMouseUp`: when a
rectangle was being drawn and all positions are known, normalize the
corners and issue a rectangle query only when both sides exceed 10. -/
def finishRectangleEffects (s : CanvasState) : List CanvasEffect :=
  match s.isDrawingRectangle, s.rectangleStart, s.dragStart, s.mousePos with
  | true, some rs, some _, some mp =>
      if 10 < jsMax rs.x mp.x - jsMin rs.x mp.x ∧ 10 < jsMax rs.y mp.y - jsMin rs.y mp.y then
        [CanvasEffect.rectangleQuery (jsMin rs.x mp.x) (jsMin rs.y mp.y)
          (jsMax rs.x mp.x) (jsMax rs.y mp.y)]
      else []
  | _, _, _, _ => []

/-- Effects of ZoneCanvas `handleMouseUp`: every pending optimistic
overlay update is committed through `onZoneUpdate`, then the
rectangle-draw flow may issue its query. The handler references no
other callback; in particular `onZoneResize` is never invoked, so no
`reOcrQuery` effect is ever produced. -/
def handleMouseUpEffects (s : CanvasState) : List CanvasEffect :=
  (s.localZoneUpdates.map fun zu => CanvasEffect.commitUpdate zu.1 zu.2) ++
    finishRectangleEffects s

/-- State reset of ZoneCanvas `handleMouseUp`: the overlay and every
drag flag are cleared. -/
def handleMouseUpState (s : CanvasState) : CanvasState :=
  { s with
      localZoneUpdates := []
      isDrawing := false
      dragStart := none
      draggingBubble := none
      isDraggingZone := false
      isDrawingRectangle := false
      rectangleStart := none
      isResizing := false }

/-- JS value passed as a rectangle coordinate to the api layer: a
finite number, NaN, or a value of some other type. -/
inductive JSCoord where
  | num (q : ℚ)
  | nan
  | other
deriving DecidableEq

/-- Truthiness of the `typeof v === number && !isNaN(v)` check of
api.ts. -/
def coordIsNum : JSCoord → Bool
  | JSCoord.num _ => true
  | _ => false

/-- Rectangle bounds object handed to `findTextInRectangle`. -/
structure RectCoords where
  x1 : JSCoord
  y1 : JSCoord
  x2 : JSCoord
  y2 : JSCoord
deriving DecidableEq

/-- Payload of the network request issued by `findTextInRectangle`: the
computed center point, the rectangle bounds actually sent, and the
rotation hint. -/
structure RectRequest where
  centerX : ℚ
  centerY : ℚ
  x1 : ℚ
  y1 : ℚ
  x2 : ℚ
  y2 : ℚ
  rotation : ℚ
deriving DecidableEq

/-- api.ts `findTextInRectangle` up to the network call: the input
validation performed before any request is issued, and the request
payload built when validation passes. `Except.error` models a thrown
`Error`, in which case no request is sent. -/
def findTextInRectangle (imageDataUrl : String) (rb : RectCoords) (rotation : ℚ) :
    Except String RectRequest :=
  if imageDataUrl = "" then Except.error "Invalid image data URL"
  else
    match rb.x1, rb.y1, rb.x2, rb.y2 with
    | JSCoord.num x1, JSCoord.num y1, JSCoord.num x2, JSCoord.num y2 =>
        if x1 ≥ x2 ∨ y1 ≥ y2 then
          Except.error "Invalid rectangle: x1 must be less than x2 and y1 must be less than y2"
        else
          Except.ok
            { centerX := (x1 + x2) / 2
              centerY := (y1 + y2) / 2
              x1 := x1
              y1 := y1
              x2 := x2
              y2 := y2
              rotation := rotation }
    | _, _, _, _ =>
        Except.error "Invalid rectangle coordinates: all values must be valid numbers"

/-- Sample zone used by the concrete scenarios: normalized box with
consistent derived fields. -/
def zStore : Zone where
  id := "zone_1"
  text := "M10"
  confidence := 1
  bbox := ⟨10, 10, 50, 50, 40, 40⟩

/-- Partial update carrying an unnormalized bounding box (x1 > x2). -/
def uBad : ZoneUpdate := { bbox := some ⟨50, 10, 10, 20, 0, 0⟩ }

/-- Partial update carrying a normalized bounding box. -/
def uGood : ZoneUpdate := { bbox := some ⟨20, 30, 60, 80, 0, 0⟩ }

/-- The zone `handleZoneUpdate` stores for `zStore` under `uGood`. -/
def zUpdated : Zone := { zStore with bbox := ⟨20, 30, 60, 80, 40, 50⟩ }

/-- Sample recognition result of a point query. -/
def rPoint1 : RecResult where
  text := some "M10"
  confidence := some (9/10)
  bbox := some ⟨100, 70, 140, 95⟩

/-- Second sample recognition result of a point query. -/
def rPoint2 : RecResult where
  text := some "12.5"
  confidence := some (4/5)
  bbox := some ⟨200, 170, 240, 195⟩

/-- Sample zone a re-OCR targets. -/
def zReOcr : Zone where
  id := "zone_1"
  text := "M8"
  confidence := 1/2
  bbox := ⟨1, 2, 10, 11, 9, 9⟩

/-- Sample successful re-OCR result whose returned box differs from the
stored one. -/
def rReOcr : RecResult where
  text := some "M10"
  confidence := some (9/10)
  bbox := some ⟨5, 6, 20, 21⟩

/-- Diamond polygon inscribed in the unit-10 box. -/
def polyDiamond : List (List ℚ) := [[5, 0], [10, 5], [5, 10], [0, 5]]

/-- Zone with a well-formed polygon override. -/
def zonePoly : Zone where
  id := "p1"
  text := "R"
  confidence := 1
  bbox := ⟨0, 0, 10, 10, 10, 10⟩
  polygon := some polyDiamond

/-- Zone with a malformed polygon (vertices carry one coordinate). -/
def zoneBadPoly : Zone where
  id := "p2"
  text := "S"
  confidence := 1
  bbox := ⟨0, 0, 10, 10, 10, 10⟩
  polygon := some [[1], [2], [3], [4]]

/-- Zone with no polygon. -/
def zonePlain : Zone where
  id := "p3"
  text := "T"
  confidence := 1
  bbox := ⟨0, 0, 10, 10, 10, 10⟩

/-- Store holding two zones with distinct ids, the first selected. -/
def sTwo : AppState where
  zones := [zStore, zonePlain]
  selectedZoneId := some "zone_1"

/-- Canvas state at the release of the scenario-C resize drag: the
pending overlay carries the box produced by dragging the e handle of
(10,10,50,50) by dx = +20, and no rectangle is being drawn. -/
def resizeReleaseState : CanvasState where
  localZoneUpdates := [("zone_1", { bbox := some ⟨10, 10, 70, 50, 60, 40⟩ })]
  isDrawing := true
  dragStart := some ⟨70, 30⟩
  mousePos := some ⟨70, 30⟩
  draggingBubble := none
  isDraggingZone := true
  isDrawingRectangle := false
  rectangleStart := none
  isResizing := true

/-- Every effect of `handleMouseUpEffects` is an overlay commit or a
rectangle query of the drawing flow. -/
theorem handleMouseUpEffects_shape (s : CanvasState) (e : CanvasEffect)
    (he : e ∈ handleMouseUpEffects s) :
    (∃ zid u, e = CanvasEffect.commitUpdate zid u) ∨
      ∃ a b c d, e = CanvasEffect.rectangleQuery a b c d := by
  rw [handleMouseUpEffects, List.mem_append] at he
  rcases he with h | h
  · obtain ⟨zu, _, rfl⟩ := List.mem_map.mp h
    exact Or.inl ⟨zu.1, zu.2, rfl⟩
  · unfold finishRectangleEffects at h
    right
    split at h
    · split at h
      · rw [List.mem_singleton] at h
        exact ⟨_, _, _, _, h⟩
      · simp at h
    · simp at h

/-- C1: releasing a drag commits every pending optimistic overlay
update into the zone store and clears the overlay, but `handleMouseUp`
never invokes the `onZoneResize` callback, so no re-recognition query
is ever emitted — for resize drags included. On the scenario-C input
(the e handle of bbox (10,10,50,50) dragged by dx = +20, giving
(10,10,70,50)) the release emits exactly the store commit and no
rectangle query. -/
theorem handleMouseUp_commits_overlay_without_reocr :
    (∀ (s : CanvasState) (zid : String),
        CanvasEffect.reOcrQuery zid ∉ handleMouseUpEffects s)
    ∧ (∀ s : CanvasState, (handleMouseUpState s).localZoneUpdates = [])
    ∧ resizeStep ⟨10, 10, 50, 50, 40, 40⟩ 50 30 20 0 = ⟨10, 10, 70, 50, 60, 40⟩
    ∧ handleMouseUpEffects resizeReleaseState =
        [CanvasEffect.commitUpdate "zone_1" { bbox := some ⟨10, 10, 70, 50, 60, 40⟩ }] := by
  refine ⟨?_, fun s => rfl, by norm_num [resizeStep, jsAbs],
    by simp [handleMouseUpEffects, finishRectangleEffects, resizeReleaseState]⟩
  intro s zid h
  rcases handleMouseUpEffects_shape s _ h with ⟨_, _, hq⟩ | ⟨_, _, _, _, hq⟩ <;>
    exact CanvasEffect.noConfusion hq

/-- C5: deleting the only zone and then undoing for the same id does
not restore the zone: the undo handler only replaces a zone still
present in the current list, so after a delete the map is the identity
while the history entry is still consumed. -/
theorem undo_after_delete_does_not_restore :
    (undoAppDelete ⟨[zStore], some "zone_1", []⟩ "zone_1").zones = []
    ∧ (undoAppDelete ⟨[zStore], some "zone_1", []⟩ "zone_1").zoneHistory = [[zStore]]
    ∧ (undoAppUndo (undoAppDelete ⟨[zStore], some "zone_1", []⟩ "zone_1") "zone_1").zones = []
    ∧ (undoAppUndo (undoAppDelete ⟨[zStore], some "zone_1", []⟩ "zone_1") "zone_1").zoneHistory
        = [] := by
  simp [undoAppDelete, undoAppUndo, zStore]

/-- C6: ids of a bulk detection pass are distinct even within one tick
thanks to the index suffix, but two singly created zones whose
responses arrive in the same millisecond both get the bare time-based
id, so the store ends up with duplicate ids. -/
theorem same_tick_single_zone_ids_collide :
    ((autoDetectZones 1234 [rPoint1, rPoint2]).map Zone.id).Nodup
    ∧ (mkClickZone 1234 rPoint1).id = "zone_1234"
    ∧ (mkClickZone 1234 rPoint2).id = "zone_1234"
    ∧ ¬ (((appendClickZone (appendClickZone [] 1234 rPoint1) 1234 rPoint2).map
          Zone.id).Nodup) := by
  exact ⟨by decide, rfl, rfl, by decide⟩

/-- C2 counterexample: a plain re-OCR does not leave the stored
bounding box unchanged — the merged zone takes the recognizer box
(5,6,20,21) in place of the stored (1,2,10,11). -/
theorem reocr_overwrites_bbox_counterexample :
    (handleZoneReOcr [zReOcr] "zone_1" (some rReOcr)).map Zone.bbox
        = [⟨5, 6, 20, 21, 15, 15⟩]
    ∧ zReOcr.bbox = ⟨1, 2, 10, 11, 9, 9⟩
    ∧ (⟨5, 6, 20, 21, 15, 15⟩ : BBox) ≠ ⟨1, 2, 10, 11, 9, 9⟩ := by
  norm_num [handleZoneReOcr, reOcrMergeZone, jsOrNum, jsOrStr, jsOrStrOpt, zReOcr, rReOcr,
    BBox.mk.injEq]

/-- C3 counterexample: dragging the se corner of the 10-by-10 box
(100,100)-(110,110) toward (50,50) leaves the box 10-by-10 but
translated to (40,40)-(50,50): the edge threshold (15) exceeds the box
size, every edge flag fires, and the box is not anchored at the
non-dragged corner (100,100). -/
theorem resize_small_box_not_anchored_counterexample :
    resizeStep ⟨100, 100, 110, 110, 10, 10⟩ 110 110 (-60) (-60)
        = ⟨40, 40, 50, 50, 10, 10⟩
    ∧ (resizeStep ⟨100, 100, 110, 110, 10, 10⟩ 110 110 (-60) (-60)).x1 ≠ 100 := by
  norm_num [resizeStep, jsAbs, BBox.mk.injEq]

/-- C4 counterexample: an update carrying corners with x1 > x2 is
stored as given — `handleZoneUpdate` recomputes width and height but
never normalizes the corners, so the stored zone violates x1 ≤ x2. -/
theorem update_unnormalized_bbox_counterexample :
    (handleZoneUpdate [zStore] "zone_1" uBad).map Zone.bbox
        = [⟨50, 10, 10, 20, -40, 10⟩]
    ∧ ¬ ((50 : ℚ) ≤ 10) := by
  norm_num [handleZoneUpdate, applyUpdate, zStore, uBad, BBox.mk.injEq]

/-- C2 (amended): both the plain re-OCR and the fit variant overwrite
text, confidence and the bounding box with the values the recognizer
returned, whenever those are present and nonzero (falsy components fall
back to the stored ones); width and height are recomputed from the
merged corners, and fit is exactly the plain re-OCR. -/
theorem reocr_and_fit_update_spec (z : Zone) (r : RecResult) (b : RecBBox) (t : String)
    (c : ℚ) (hb : r.bbox = some b) (hx1 : b.x1 ≠ 0) (hy1 : b.y1 ≠ 0) (hx2 : b.x2 ≠ 0)
    (hy2 : b.y2 ≠ 0) (ht : r.text = some t) (ht0 : t ≠ "") (hc : r.confidence = some c)
    (hc0 : c ≠ 0) :
    (reOcrMergeZone z r).text = t
    ∧ (reOcrMergeZone z r).confidence = c
    ∧ (reOcrMergeZone z r).bbox = ⟨b.x1, b.y1, b.x2, b.y2, b.x2 - b.x1, b.y2 - b.y1⟩
    ∧ ∀ zones zoneId result,
        handleZoneFit zones zoneId result = handleZoneReOcr zones zoneId result := by
  refine ⟨?_, ?_, ?_, fun _ _ _ => rfl⟩ <;>
    simp [reOcrMergeZone, jsOrNum, jsOrStr, hb, ht, hc, ht0, hc0, hx1, hy1, hx2, hy2]

/-- Witness for the C2 theorem at the sample zone and result. -/
theorem reocr_and_fit_update_spec_witness :
    (reOcrMergeZone zReOcr rReOcr).text = "M10"
    ∧ (reOcrMergeZone zReOcr rReOcr).confidence = 9/10
    ∧ (reOcrMergeZone zReOcr rReOcr).bbox = ⟨5, 6, 20, 21, 15, 15⟩ := by
  have h := reocr_and_fit_update_spec zReOcr rReOcr ⟨5, 6, 20, 21⟩ "M10" (9/10)
    rfl (by norm_num) (by norm_num) (by norm_num) (by norm_num) rfl (by simp)
    rfl (by norm_num)
  refine ⟨h.1, h.2.1, h.2.2.1.trans ?_⟩
  norm_num [BBox.mk.injEq]

/-- C3 (amended): when the resize drag starts within the 15px edge
threshold of only the right and bottom edges — possible only when the
box is large enough relative to the threshold — the left and top edges
never move (the box stays anchored at the non-dragged nw corner) and
the 10px minimum size is enforced by clamping only the moving edges.
For a box smaller than the threshold (such as the 10-by-10 box of the
cited example) the drag start is near all four edges, so the box
translates instead, as the counterexample shows. -/
theorem resizeStep_se_anchored (b : BBox) (sx sy dx dy : ℚ)
    (hL : ¬ jsAbs (sx - b.x1) < 15) (hR : jsAbs (sx - b.x2) < 15)
    (hT : ¬ jsAbs (sy - (b.y1 - 2)) < 15) (hB : jsAbs (sy - (b.y2 - 2)) < 15) :
    (resizeStep b sx sy dx dy).x1 = b.x1
    ∧ (resizeStep b sx sy dx dy).y1 = b.y1
    ∧ 10 ≤ (resizeStep b sx sy dx dy).x2 - (resizeStep b sx sy dx dy).x1
    ∧ 10 ≤ (resizeStep b sx sy dx dy).y2 - (resizeStep b sx sy dx dy).y1 := by
  simp only [resizeStep, if_neg hL, if_pos hR, if_neg hT, if_pos hB]
  by_cases hcx : b.x2 + dx - b.x1 < 10 <;> by_cases hcy : b.y2 + dy - b.y1 < 10 <;>
    simp [hcx, hcy] <;> (repeat' constructor) <;> linarith

/-- Witness for the C3 theorem: an se drag on the 100-by-100 box at
(0,0)-(100,100) by dx = -200 keeps the nw corner and clamps the width
to the minimum. -/
theorem resizeStep_se_anchored_witness :
    (resizeStep ⟨0, 0, 100, 100, 100, 100⟩ 100 100 (-200) 0).x1 = 0
    ∧ 10 ≤ (resizeStep ⟨0, 0, 100, 100, 100, 100⟩ 100 100 (-200) 0).x2
        - (resizeStep ⟨0, 0, 100, 100, 100, 100⟩ 100 100 (-200) 0).x1 := by
  have h := resizeStep_se_anchored ⟨0, 0, 100, 100, 100, 100⟩ 100 100 (-200) 0
    (by norm_num [jsAbs]) (by norm_num [jsAbs]) (by norm_num [jsAbs]) (by norm_num [jsAbs])
  exact ⟨h.1, h.2.2.1⟩

/-- C4 (amended): after `handleZoneUpdate` with an update carrying a
bounding box, the stored zone with the targeted id has width and height
recomputed from its corners; the corners are stored exactly as supplied,
so x1 ≤ x2 and y1 ≤ y2 hold provided the supplied box is normalized —
`handleZoneUpdate` itself never reorders corners, as the counterexample
shows. -/
theorem handleZoneUpdate_bbox_spec (zones : List Zone) (zoneId : String) (u : ZoneUpdate)
    (b : BBox) (hub : u.bbox = some b) (hx : b.x1 ≤ b.x2) (hy : b.y1 ≤ b.y2) :
    ∀ z' ∈ handleZoneUpdate zones zoneId u, z'.id = zoneId →
      z'.bbox.width = z'.bbox.x2 - z'.bbox.x1
      ∧ z'.bbox.height = z'.bbox.y2 - z'.bbox.y1
      ∧ z'.bbox.x1 ≤ z'.bbox.x2 ∧ z'.bbox.y1 ≤ z'.bbox.y2 := by
  intro z' hz' hid
  rw [handleZoneUpdate, List.mem_map] at hz'
  obtain ⟨z, hz, rfl⟩ := hz'
  by_cases h : z.id = zoneId
  · have hbb : (applyUpdate z u).bbox = b := by simp [applyUpdate, hub]
    simp only [if_pos h, hub, Option.isSome_some, if_true, hbb]
    exact ⟨trivial, trivial, hx, hy⟩
  · rw [if_neg h] at hid ⊢
    exact absurd hid h

/-- Witness for the C4 theorem at the sample store and a normalized
update. -/
theorem handleZoneUpdate_bbox_spec_witness :
    zUpdated.bbox.width = zUpdated.bbox.x2 - zUpdated.bbox.x1
    ∧ zUpdated.bbox.height = zUpdated.bbox.y2 - zUpdated.bbox.y1
    ∧ zUpdated.bbox.x1 ≤ zUpdated.bbox.x2 ∧ zUpdated.bbox.y1 ≤ zUpdated.bbox.y2 := by
  have hmem : zUpdated ∈ handleZoneUpdate [zStore] "zone_1" uGood := by
    norm_num [handleZoneUpdate, applyUpdate, zStore, uGood, zUpdated, Zone.mk.injEq,
      BBox.mk.injEq]
  exact handleZoneUpdate_bbox_spec [zStore] "zone_1" uGood ⟨20, 30, 60, 80, 0, 0⟩
    rfl (by norm_num) (by norm_num) zUpdated hmem rfl

/-- C7: the per-zone hit test rejects any point outside the bounding
box; inside the box it equals the ray-casting point-in-polygon verdict
when a well-formed polygon (at least 4 vertices, each with at least 2
coordinates) is present, and otherwise it is the bbox containment
itself. -/
theorem hitTestZone_spec (x y : ℚ) (z : Zone) :
    (bboxContains z.bbox x y = false → hitTestZone x y z = false)
    ∧ (∀ polygon, z.polygon = some polygon → wellFormedPolygon polygon = true →
        bboxContains z.bbox x y = true → hitTestZone x y z = isPointInPolygon x y polygon)
    ∧ (z.polygon = none → hitTestZone x y z = bboxContains z.bbox x y)
    ∧ (∀ polygon, z.polygon = some polygon → wellFormedPolygon polygon = false →
        hitTestZone x y z = bboxContains z.bbox x y) := by
  refine ⟨fun h => ?_, fun polygon hp hw hc => ?_, fun hp => ?_, fun polygon hp hw => ?_⟩
  · simp [hitTestZone, h]
  · simp [hitTestZone, hp, hw, hc]
  · cases hb : bboxContains z.bbox x y <;> simp [hitTestZone, hp, hb]
  · cases hb : bboxContains z.bbox x y <;> simp [hitTestZone, hp, hw, hb]

/-- Witness for the C7 theorem on the diamond-polygon zone, the plain
zone, and the malformed-polygon zone; the corner point (1,1) is inside
the bbox but outside the diamond, so the hit test defers to the
polygon and rejects. -/
theorem hitTestZone_spec_witness :
    hitTestZone 20 20 zonePoly = false
    ∧ hitTestZone 1 1 zonePoly = isPointInPolygon 1 1 polyDiamond
    ∧ isPointInPolygon 1 1 polyDiamond = false
    ∧ hitTestZone 5 5 zonePlain = bboxContains zonePlain.bbox 5 5
    ∧ hitTestZone 5 5 zoneBadPoly = bboxContains zoneBadPoly.bbox 5 5 := by
  refine ⟨(hitTestZone_spec 20 20 zonePoly).1 (by norm_num [bboxContains, zonePoly]),
    (hitTestZone_spec 1 1 zonePoly).2.1 polyDiamond rfl (by simp [wellFormedPolygon, polyDiamond])
      (by norm_num [bboxContains, zonePoly]),
    ?_,
    (hitTestZone_spec 5 5 zonePlain).2.2.1 rfl,
    (hitTestZone_spec 5 5 zoneBadPoly).2.2.2 [[1], [2], [3], [4]] rfl
      (by simp [wellFormedPolygon])⟩
  norm_num [isPointInPolygon, polyDiamond, List.range_succ]

/-- Helper for C8: with unique ids and the id present, the delete
filter removes exactly one element. -/
theorem length_filter_delete_of_nodup (l : List Zone) (zoneId : String)
    (hnd : (l.map Zone.id).Nodup) (hmem : zoneId ∈ l.map Zone.id) :
    (l.filter fun z => z.id != zoneId).length + 1 = l.length := by
  induction l with
  | nil => simp at hmem
  | cons z l ih =>
    rw [List.map_cons, List.nodup_cons] at hnd
    by_cases h : z.id = zoneId
    · have hrest : ∀ w ∈ l, (w.id != zoneId) = true := by
        intro w hw
        have hne : w.id ≠ zoneId := by
          intro he
          exact hnd.1 (h ▸ he ▸ List.mem_map_of_mem Zone.id hw)
        simp [hne]
      rw [List.filter_cons_of_neg (by simp [h]), List.filter_eq_self.mpr hrest,
        List.length_cons]
    · have hz : zoneId ∈ l.map Zone.id := by
        rcases List.mem_cons.mp hmem with h1 | h1
        · exact absurd h1.symm h
        · exact h1
      have := ih hnd.2 hz
      rw [List.filter_cons_of_pos (by simp [h]), List.length_cons, List.length_cons]
      omega

/-- C8: deleting a present id from a store with unique ids removes
exactly the zone carrying that id, keeps every other zone in order
(the result is a sublist of the original), shortens the list by one so
the derived display numbers recompute to the contiguous range starting
at 1, and clears the selection exactly when it pointed at the deleted
id. -/
theorem handleZoneDelete_spec (s : AppState) (zoneId : String)
    (hnd : (s.zones.map Zone.id).Nodup) (hmem : zoneId ∈ s.zones.map Zone.id) :
    (handleZoneDelete s zoneId).zones.Sublist s.zones
    ∧ (∀ z : Zone, z ∈ (handleZoneDelete s zoneId).zones ↔ z ∈ s.zones ∧ z.id ≠ zoneId)
    ∧ (handleZoneDelete s zoneId).zones.length + 1 = s.zones.length
    ∧ displayNumbers (handleZoneDelete s zoneId).zones
        = List.range' 1 (handleZoneDelete s zoneId).zones.length
    ∧ (s.selectedZoneId = some zoneId → (handleZoneDelete s zoneId).selectedZoneId = none)
    ∧ (s.selectedZoneId ≠ some zoneId →
        (handleZoneDelete s zoneId).selectedZoneId = s.selectedZoneId) := by
  refine ⟨List.filter_sublist _, fun z => ?_,
    length_filter_delete_of_nodup s.zones zoneId hnd hmem, ?_, fun h => ?_, fun h => ?_⟩
  · simp [handleZoneDelete, List.mem_filter]
  · rw [displayNumbers, List.range'_eq_map_range]
    exact List.map_congr_left fun a _ => Nat.add_comm a 1
  · simp [handleZoneDelete, h]
  · simp [handleZoneDelete, h]

/-- Witness for the C8 theorem on the two-zone store with the first
zone selected and deleted. -/
theorem handleZoneDelete_spec_witness :
    (handleZoneDelete sTwo "zone_1").zones.length + 1 = sTwo.zones.length
    ∧ (handleZoneDelete sTwo "zone_1").selectedZoneId = none := by
  have h := handleZoneDelete_spec sTwo "zone_1" (by decide) (by decide)
  exact ⟨h.2.2.1, h.2.2.2.2.1 rfl⟩

/-- C9: updating an id that is not in the store is a no-op — the store
is returned unchanged and no error arises (the handler is total). -/
theorem handleZoneUpdate_missing_id_noop (zones : List Zone) (zoneId : String)
    (u : ZoneUpdate) (h : zoneId ∉ zones.map Zone.id) :
    handleZoneUpdate zones zoneId u = zones := by
  induction zones with
  | nil => rfl
  | cons z l ih =>
    rw [List.map_cons, List.mem_cons, not_or] at h
    show (if z.id = zoneId then _ else z) :: handleZoneUpdate l zoneId u = z :: l
    rw [if_neg (fun he => h.1 he.symm), ih h.2]

/-- Witness for the C9 theorem: an update against an absent id leaves
the one-zone store untouched. -/
theorem handleZoneUpdate_missing_id_noop_witness :
    handleZoneUpdate [zStore] "zone_2" uGood = [zStore] :=
  handleZoneUpdate_missing_id_noop [zStore] "zone_2" uGood (by decide)

/-- C10: `findTextInRectangle` validates before any request is issued:
with a nonempty image data url, it throws when any coordinate is not a
finite number, throws when the rectangle is degenerate (x1 ≥ x2 or
y1 ≥ y2), and any request it actually sends satisfies x1 < x2 and
y1 < y2 (with the center at the rectangle midpoint). -/
theorem findTextInRectangle_spec (url : String) (rb : RectCoords) (rot : ℚ)
    (hurl : url ≠ "") :
    (∀ req, findTextInRectangle url rb rot = Except.ok req →
        req.x1 < req.x2 ∧ req.y1 < req.y2
        ∧ req.centerX = (req.x1 + req.x2) / 2 ∧ req.centerY = (req.y1 + req.y2) / 2)
    ∧ ((coordIsNum rb.x1 = false ∨ coordIsNum rb.y1 = false ∨ coordIsNum rb.x2 = false
          ∨ coordIsNum rb.y2 = false) →
        findTextInRectangle url rb rot
          = Except.error "Invalid rectangle coordinates: all values must be valid numbers")
    ∧ (∀ x1 y1 x2 y2 : ℚ,
        rb = ⟨JSCoord.num x1, JSCoord.num y1, JSCoord.num x2, JSCoord.num y2⟩ →
        x2 ≤ x1 ∨ y2 ≤ y1 →
        findTextInRectangle url rb rot
          = Except.error
              "Invalid rectangle: x1 must be less than x2 and y1 must be less than y2") := by
  obtain ⟨cx1, cy1, cx2, cy2⟩ := rb
  refine ⟨fun req hreq => ?_, fun hnum => ?_, fun x1 y1 x2 y2 heq hdeg => ?_⟩
  · rw [findTextInRectangle, if_neg hurl] at hreq
    cases cx1 <;> cases cy1 <;> cases cx2 <;> cases cy2 <;> simp only [] at hreq <;>
      try exact Except.noConfusion hreq
    rename_i qx1 qy1 qx2 qy2
    by_cases hc : qx1 ≥ qx2 ∨ qy1 ≥ qy2
    · rw [if_pos hc] at hreq
      exact Except.noConfusion hreq
    · rw [if_neg hc] at hreq
      push_neg at hc
      obtain rfl := Except.ok.inj hreq
      exact ⟨hc.1, hc.2, rfl, rfl⟩
  · rw [findTextInRectangle, if_neg hurl]
    cases cx1 <;> cases cy1 <;> cases cx2 <;> cases cy2 <;>
      first
      | rfl
      | simp [coordIsNum] at hnum
  · obtain ⟨rfl, rfl, rfl, rfl⟩ := RectCoords.mk.inj heq
    rw [findTextInRectangle, if_neg hurl]
    exact if_pos (by rcases hdeg with h | h; exacts [Or.inl h, Or.inr h])

/-- Witness for the C10 theorem at a concrete valid rectangle. -/
theorem findTextInRectangle_spec_witness : (0 : ℚ) < 10 ∧ (0 : ℚ) < 10 := by
  have h := findTextInRectangle_spec "img"
    ⟨JSCoord.num 0, JSCoord.num 0, JSCoord.num 10, JSCoord.num 10⟩ 0 (by decide)
  have hurl : ¬ ("img" = "") := by decide
  have hdeg : ¬ ((0 : ℚ) ≥ 10 ∨ (0 : ℚ) ≥ 10) := by norm_num
  have hreq := h.1 ⟨(0 + 10) / 2, (0 + 10) / 2, 0, 0, 10, 10, 0⟩
    (by simp only [findTextInRectangle, if_neg hurl, if_neg hdeg])
  exact ⟨hreq.1, hreq.2.1⟩

end OcrCanvas
